import Mathlib

/-!
Verification of the VGRTool benchmarking harness (Python) against its
natural-language specification.

The harness consists of four near-duplicate scripts:
  - run_benchmark.py (top level): concurrent variant using a thread pool,
    "error: [NullAway]" substring counting via str.count, -999 sentinel.
  - benchmarking/base_script.py: sequential variant (initialize / annotate /
    get_errors / refactor / summarize / run / run_dataset).
  - benchmarking/run_nullaway.py: staged variant (stage_zero .. stage_four).
  - benchmarking/run_benchmark.py: staged variant with stage_one_count_errors
    and stage_one_refactor.

Every external process invocation (javac, find, the VGRTool jar, wget) is
modelled by an environment record carrying the observable outcome of that
invocation (exit code, timeout flag, captured stderr text); the scripts' own
logic - branching, counting, aggregation, exit codes - is translated
faithfully from the Python source.  Python exceptions that escape a function
(subprocess.TimeoutExpired, SystemExit) are modelled with Except.
-/

/-! ## Log parser

base_script.get_errors counts occurrences with
  re.findall(r"error: \[NullAway\]", f.read())
and run_benchmark.py (top level) with
  result.count("error: [NullAway]").
Both count the non-overlapping occurrences of the same 17-character literal,
scanning left to right and skipping the length of the pattern after a match.
-/

/-- The fixed analyzer-error marker string "error: [NullAway]" as a character
list (17 characters). -/
def marker : List Char :=
  ['e', 'r', 'r', 'o', 'r', ':', ' ', '[', 'N', 'u', 'l', 'l', 'A', 'w', 'a', 'y', ']']

/-- Boolean test that the first list is an initial segment of the second. -/
def listStartsWith : List Char → List Char → Bool
  | [], _ => true
  | _ :: _, [] => false
  | p :: ps, c :: cs => p == c && listStartsWith ps cs

/-- Scanner for the greedy left-to-right count.  The first argument is the
number of characters still to be consumed without testing because they belong
to the match just found; at skip 0 the scanner tests for a match and, on
success, counts it and consumes the remaining 16 characters of the match. -/
def countMarkerAux : Nat → List Char → Nat
  | _, [] => 0
  | 0, c :: rest =>
    if listStartsWith marker (c :: rest) then
      countMarkerAux (marker.length - 1) rest + 1
    else
      countMarkerAux 0 rest
  | s + 1, _ :: rest => countMarkerAux s rest

/-- Number of non-overlapping occurrences of the marker in a text, scanning
left to right and skipping the whole match - the semantics of both Python
str.count on a fixed pattern and re.findall on the escaped literal. -/
def countMarker (l : List Char) : Nat :=
  countMarkerAux 0 l

/-- Join a list of lines with the newline character, as the lines of the raw
analyzer output are joined in the log text. -/
def joinLines : List (List Char) → List Char
  | [] => []
  | [l] => l
  | l :: ls => l ++ '\n' :: joinLines ls

/-! ## Aggregator (base_script.summarize / run_nullaway.stage_four)

Both aggregators run the same pandas pipeline over the collected rows:
  error_reduction          = initial_error_count - refactored_error_count
  error_reduction_percent  = (error_reduction / initial_error_count) * 100
                             if initial_error_count != 0 else 0
  percent column           : astype Float64, replace ±inf with NA
  average percent          = column.dropna().mean()
Python float arithmetic is modelled with exact rationals; the guarded
division (initial_error_count ≠ 0) produces a finite value in either
semantics, so the ±inf replacement step removes nothing and dropna keeps
every row.  NA cells are modelled with Option. -/

/-- One collected row, as appended by run / run_dataset / the staged runs. -/
structure BenchmarkResult where
  benchmark : String
  initial_error_count : Int
  refactored_error_count : Int
deriving DecidableEq, Repr

/-- One row of the summary table written to summary.csv. -/
structure SummaryRow where
  benchmark : String
  initial_error_count : Int
  refactored_error_count : Int
  error_reduction : Int
  error_reduction_percent : Option ℚ
deriving DecidableEq, Repr

/-- The error_reduction column: initial minus refactored, never clamped. -/
def error_reduction (r : BenchmarkResult) : Int :=
  r.initial_error_count - r.refactored_error_count

/-- The error_reduction_percent lambda of summarize / stage_four:
(reduction / initial) * 100 when the initial count is non-zero, else 0. -/
def error_reduction_percent (r : BenchmarkResult) : ℚ :=
  if r.initial_error_count ≠ 0 then
    ((error_reduction r : ℚ) / (r.initial_error_count : ℚ)) * 100
  else 0

/-- The full summary table construction: both derived columns, with the
percent column wrapped in Option for the inf-to-NA replacement step (which
never fires, since the guarded division is always finite). -/
def summarizeRows (results : List BenchmarkResult) : List SummaryRow :=
  results.map (fun r =>
    ⟨r.benchmark, r.initial_error_count, r.refactored_error_count,
      error_reduction r, some (error_reduction_percent r)⟩)

/-- pandas Series.dropna over an Option-valued column. -/
def dropNA : List (Option ℚ) → List ℚ
  | [] => []
  | none :: l => dropNA l
  | some q :: l => q :: dropNA l

/-- The reported average percent reduction:
benchmark_results["error_reduction_percent"].dropna().mean(). -/
def avg_percent_reduction (results : List BenchmarkResult) : ℚ :=
  let col := (summarizeRows results).map (fun row => row.error_reduction_percent)
  (dropNA col).sum / ((dropNA col).length : ℚ)

/-- The mean of the error_reduction column (avg_diff in the source). -/
def avg_error_reduction (results : List BenchmarkResult) : ℚ :=
  ((results.map (fun r => (error_reduction r : ℚ))).sum) / (results.length : ℚ)

/-- Modelled from the claim for comparison, not from the source: the average
percentage that C3 asserts, taken only over rows whose initial count is
non-zero. -/
def avg_percent_nonzero (results : List BenchmarkResult) : ℚ :=
  let nz := results.filter (fun r => r.initial_error_count ≠ 0)
  ((nz.map error_reduction_percent).sum) / (nz.length : ℚ)

/-- Rounding to two decimal places, used to relate the exact percentage to
the two-decimal figure quoted in the specification scenario. -/
def roundTo2 (q : ℚ) : ℚ :=
  ((⌊q * 100 + 1 / 2⌋ : Int) : ℚ) / 100

/-! ## Concurrent benchmark runner (run_benchmark.py, top level)

run_benchmark(benchmark, logpath):
  - returns {"name": benchmark, "value": -999} when the dataset directory
    does not exist;
  - runs find inside try/except SubprocessError, logging and returning the
    -999 record on failure;
  - runs javac via subprocess.run(..., timeout=TIMEOUT) with NO surrounding
    try/except: a timeout raises subprocess.TimeoutExpired out of the
    function.  The CompletedProcess exit status is never inspected; stderr is
    captured and its marker occurrences counted.
run_benchmarks submits one task per dataset to a ThreadPoolExecutor and
collects [f.result() for f in as_completed(futures)]: results arrive in
completion order (an arbitrary permutation of the submission order), and the
first result() that re-raises an exception aborts the collection. -/

/-- Observable outcomes of the external invocations made for one dataset. -/
structure DatasetEnv where
  isDir : Bool
  findFails : Bool
  javacTimesOut : Bool
  javacExitCode : Int
  javacStderr : List Char
deriving DecidableEq, Repr

/-- A Python exception escaping a modelled function: subprocess.TimeoutExpired
from a timed-out child process, or FileNotFoundError from exec of a
non-existent program. -/
inductive PyError where
  | timeoutExpired
  | fileNotFound
deriving DecidableEq, Repr

deriving instance DecidableEq for Except

/-- One row of the results table: {"name": ..., "value": ...}. -/
structure BResult where
  name : String
  value : Int
deriving DecidableEq, Repr

/-- run_benchmark(benchmark, logpath) of run_benchmark.py (top level). -/
def run_benchmark (benchmark : String) (env : DatasetEnv) : Except PyError BResult :=
  if env.isDir = false then .ok ⟨benchmark, -999⟩
  else if env.findFails then .ok ⟨benchmark, -999⟩
  else if env.javacTimesOut then .error .timeoutExpired
  else .ok ⟨benchmark, (countMarker env.javacStderr : Int)⟩

/-- Whether the dataset's javac run reaches the timeout (the only way
run_benchmark can raise). -/
def timesOutB (t : String × DatasetEnv) : Bool :=
  t.2.isDir && !t.2.findFails && t.2.javacTimesOut

/-- The row run_benchmark returns when it does not raise. -/
def benchResult (t : String × DatasetEnv) : BResult :=
  if t.2.isDir = false then ⟨t.1, -999⟩
  else if t.2.findFails then ⟨t.1, -999⟩
  else ⟨t.1, (countMarker t.2.javacStderr : Int)⟩

/-- run_benchmarks: collect the per-dataset results in the given completion
order; the first raised exception aborts the collection. -/
def run_benchmarks : List (String × DatasetEnv) → Except PyError (List BResult)
  | [] => .ok []
  | t :: ts =>
    match run_benchmark t.1 t.2 with
    | .error e => .error e
    | .ok r =>
      match run_benchmarks ts with
      | .error e => .error e
      | .ok rs => .ok (r :: rs)

/-- Looking one dataset's value up in a results table by name, the way the
rows are consumed keyed by the "name" column. -/
def lookupValue (name : String) (rs : List BResult) : Option Int :=
  (rs.find? (fun r => r.name == name)).map (fun r => r.value)

/-! ## Refactor step (run_benchmark.py refactor_dataset, base_script.refactor)

refactor_dataset runs the VGRTool jar via subprocess.run(..., timeout=TIMEOUT)
with the tool's stdout/stderr redirected into the per-dataset log file, then
appends the command line to the log; the CompletedProcess is discarded, so a
non-zero exit is silently logged-and-continued, while a timeout raises an
uncaught subprocess.TimeoutExpired.  base_script.refactor instead uses
os.system (no timeout is possible) and only prints a message on non-zero
exit. -/

/-- Observable outcome of one VGRTool invocation. -/
structure RefEnv where
  timesOut : Bool
  exitCode : Int
  toolOutput : List Char
deriving DecidableEq, Repr

/-- The refactoring command line of refactor_dataset. -/
def refactorCmd (dataset : String) : List String :=
  ["java", "-jar", "build/libs/VGRTool-Full-1.0.jar",
    "./benchmarking/datasets/" ++ dataset, "All"]

/-- The trailer appended to the per-dataset refactoring log. -/
def refactorTrailer (dataset : String) : List Char :=
  ("\n REFACTORING COMMAND \n " ++ String.intercalate " " (refactorCmd dataset)).data

/-- refactor_dataset of run_benchmark.py (top level): returns the final
per-dataset log content, or raises TimeoutExpired. -/
def refactor_dataset (dataset : String) (env : RefEnv) : Except PyError (List Char) :=
  if env.timesOut then .error .timeoutExpired
  else .ok (env.toolOutput ++ refactorTrailer dataset)

/-- refactor: collect the refactoring tasks; the first raised exception
aborts the collection. -/
def refactorAll : List (String × RefEnv) → Except PyError Unit
  | [] => .ok ()
  | t :: ts =>
    match refactor_dataset t.1 t.2 with
    | .error e => .error e
    | .ok _ => refactorAll ts

/-- The default pipeline of run_benchmark.py (top level): initialize
(analyzer pass over every dataset), refactor all datasets, final analyzer
pass, then the summary is computed from the merged before/after tables. -/
def fullRun (pre : List (String × DatasetEnv)) (ref : List (String × RefEnv))
    (post : List (String × DatasetEnv)) :
    Except PyError (List BResult × List BResult) :=
  match run_benchmarks pre with
  | .error e => .error e
  | .ok a =>
    match refactorAll ref with
    | .error e => .error e
    | .ok _ =>
      match run_benchmarks post with
      | .error e => .error e
      | .ok b => .ok (a, b)

/-- Per-dataset observable outcomes in base_script.run. -/
structure BaseDatasetEnv where
  preLog : List Char
  refactorExitCode : Int
  postLog : List Char
deriving DecidableEq, Repr

/-- base_script.refactor: os.system with a shell redirect (no timeout
exists); a non-zero exit only prints this console message and the function
returns normally. -/
def refactorBaseMessages (dataset : String) (env : BaseDatasetEnv) : List String :=
  if env.refactorExitCode ≠ 0 then
    ["Running VGRTool failed with exit code " ++ toString env.refactorExitCode ++
      " for dataset " ++ dataset]
  else []

/-- base_script.run: every dataset goes through annotate, get_errors,
refactor, get_errors; none of these steps can raise, so a row is appended
for every dataset and summarize always receives the full table. -/
def runBase (datasets : List (String × BaseDatasetEnv)) : List BenchmarkResult :=
  datasets.map (fun d =>
    ⟨d.1, (countMarker d.2.preLog : Int), (countMarker d.2.postLog : Int)⟩)

/-! ## Process exit codes (C7) -/

/-- How a modelled script invocation ends: fall through normally, or
terminate the interpreter with an explicit status. -/
inductive Outcome where
  | completed
  | exited (code : Nat)
deriving DecidableEq, Repr

/-- Outcomes of the dataset download/extraction performed when the cache
directory is empty. -/
structure SetupEnv where
  cacheEmpty : Bool
  downloadOk : Bool
  extractOk : Bool
deriving DecidableEq, Repr

/-- base_script.initialize / run_nullaway.stage_zero cache setup: when the
cache is empty, a failed wget exits 1, then a failed unzip pipeline exits 1;
otherwise the function completes. -/
def initializeSetup (env : SetupEnv) : Outcome :=
  if env.cacheEmpty then
    if env.downloadOk = false then .exited 1
    else if env.extractOk = false then .exited 1
    else .completed
  else .completed

/-- Presence and downloadability of one required processor jar. -/
structure JarStatus where
  present : Bool
  downloadOk : Bool
deriving DecidableEq, Repr

/-- benchmarking/run_benchmark.py stage_zero jar verification: each missing
jar is downloaded; a failed download exits with code 1. -/
def verifyJars : List JarStatus → Outcome
  | [] => .completed
  | j :: js =>
    if j.present = false ∧ j.downloadOk = false then .exited 1 else verifyJars js

/-- base_script.run_dataset guard: when the requested dataset is missing
from the cache it prints an error message and calls sys.exit() with NO
argument - SystemExit(None), which terminates the interpreter with exit
status 0. -/
def runDatasetGuard (cacheDirExists : Bool) : Outcome :=
  if cacheDirExists then .completed else .exited 0

/-! ## run_nullaway.run_benchmark (C9) -/

/-- One entry of the dataset directory listing. -/
structure NEntry where
  name : String
  isDir : Bool
deriving DecidableEq, Repr

/-- run_nullaway.run_benchmark: iterate the directory listing; skip
non-directories; for the first directory, build and print the javac command
and then call sys.exit() - modelled as Except.error carrying the process
exit status 0 (SystemExit(None)).  The subprocess invocation and the
error-count accumulation written after the exit are unreachable, so no
(name, count) pair is ever produced. -/
def run_benchmark_nullaway : List NEntry → Except Nat (List (String × Nat))
  | [] => .ok []
  | e :: es => if e.isDir = false then run_benchmark_nullaway es else .error 0

/-- run_nullaway.stage_one: builds the initial rows from run_benchmark's
dictionary (refactored_error_count still None); it inherits the exit. -/
def stageOneNullaway (entries : List NEntry) :
    Except Nat (List (String × Option Nat × Option Nat)) :=
  match run_benchmark_nullaway entries with
  | .error c => .error c
  | .ok errs => .ok (errs.map (fun r => (r.1, some r.2, (none : Option Nat))))

/-! ## CompletedProcess comparison (C10) -/

/-- The observable field of a subprocess.CompletedProcess. -/
structure CompletedProcess where
  returncode : Int
deriving DecidableEq, Repr

/-- A Python value that is either an int or a CompletedProcess object. -/
inductive PyObject where
  | pyInt (n : Int)
  | pyCompletedProcess (p : CompletedProcess)
deriving DecidableEq, Repr

/-- Python equality of an int against such a value: int == int compares
numeric values; CompletedProcess defines no __eq__, so both operands return
NotImplemented for the cross-type comparison and Python falls back to
object identity, which is False because an int is never the same object as
a CompletedProcess. -/
def pyEqIntObj : Int → PyObject → Bool
  | n, .pyInt m => n == m
  | _, .pyCompletedProcess _ => false

/-- The test `res != 0` written in stage_one_count_errors and
stage_one_refactor, where res is the CompletedProcess returned by
subprocess.run - not its returncode. -/
def pyResNe0 (res : CompletedProcess) : Bool :=
  !(pyEqIntObj 0 (.pyCompletedProcess res))

/-- Outcome of one shell invocation in the staged variant.  Used for
stage_one_refactor, whose subprocess.run call passes shell=True and so
always yields a CompletedProcess. -/
structure BuildRunEnv where
  returncode : Int
  logContent : List Char
deriving DecidableEq, Repr

/-- stage_one_refactor runs gradlew through the shell (shell=True), obtains
a CompletedProcess, performs the `res != 0` comparison against it and, the
comparison being always true, prints the VGRTool-failed message (and then
continues). -/
def stage_one_refactor_prints_failure (env : BuildRunEnv) : Bool :=
  pyResNe0 ⟨env.returncode⟩

/-- The ten -J--add-exports and -J--add-opens flags of ERROR_PRONE_EXPORTS
in benchmarking/run_benchmark.py. -/
def ERROR_PRONE_EXPORTS : List String :=
  ["-J--add-exports=jdk.compiler/com.sun.tools.javac.api=ALL-UNNAMED",
   "-J--add-exports=jdk.compiler/com.sun.tools.javac.file=ALL-UNNAMED",
   "-J--add-exports=jdk.compiler/com.sun.tools.javac.main=ALL-UNNAMED",
   "-J--add-exports=jdk.compiler/com.sun.tools.javac.model=ALL-UNNAMED",
   "-J--add-exports=jdk.compiler/com.sun.tools.javac.parser=ALL-UNNAMED",
   "-J--add-exports=jdk.compiler/com.sun.tools.javac.processing=ALL-UNNAMED",
   "-J--add-exports=jdk.compiler/com.sun.tools.javac.tree=ALL-UNNAMED",
   "-J--add-exports=jdk.compiler/com.sun.tools.javac.util=ALL-UNNAMED",
   "-J--add-opens=jdk.compiler/com.sun.tools.javac.code=ALL-UNNAMED",
   "-J--add-opens=jdk.compiler/com.sun.tools.javac.comp=ALL-UNNAMED"]

/-- The single-quote character (codepoint 39) that the source's f-string
wraps the plugin-options argument in. -/
def squote : String := String.singleton (Char.ofNat 39)

/-- get_build_cmd of benchmarking/run_benchmark.py: "javac", the export
flags, the output/classpath options, the processorpath value, the quoted
plugin-options string and the @source-list file.  The processorpath value
(the Python f-string of the PROCESSOR_JARS list of dicts) and the
dynamically assembled plugin-options string are parameters: only their
position inside the joined command matters here. -/
def get_build_cmd (dataset procpath plugin : String) : List String :=
  ["javac"] ++ ERROR_PRONE_EXPORTS ++
    ["-d", "./benchmarking/compiled_classes",
     "-cp", "./benchmarking/datasets/refactored/" ++ dataset ++
       "/lib:./benchmarking/jars/annotator/annotator-core-1.3.15.jar",
     "-XDcompilePolicy=simple",
     "--should-stop=ifError=FLOW",
     "-processorpath", procpath,
     squote ++ plugin ++ squote,
     "-Xmaxerrs", "0",
     "-Xmaxwarns", "0",
     "@./benchmarking/sources/" ++ dataset ++ ".txt"]

/-- The build command joined into one string, as stage_one_count_errors
computes it: " ".join(get_build_cmd(dataset)). -/
def buildCmdJoined (dataset procpath plugin : String) : String :=
  String.intercalate " " (get_build_cmd dataset procpath plugin)

/-- POSIX execution environment for one subprocess.run call made with a
STRING argument and without shell=True: the string is taken as the name of
a single program; available lists the path names that resolve to an
executable, and returncode/logContent are what the program would produce if
it did run. -/
structure ExecEnv where
  available : List String
  returncode : Int
  logContent : List Char
deriving DecidableEq, Repr

/-- subprocess.run with a string argument and no shell: exec the program
named by the whole string, or raise FileNotFoundError when no executable of
that name exists. -/
def subprocessRunStr (env : ExecEnv) (cmd : String) : Except PyError CompletedProcess :=
  if cmd ∈ env.available then .ok ⟨env.returncode⟩ else .error .fileNotFound

/-- benchmarking/run_benchmark.py stage_one_count_errors: joins the build
command into ONE string and passes it to subprocess.run WITHOUT shell=True.
When, as on any POSIX system, no executable is named by that whole
space-embedded string, the call raises FileNotFoundError before any
CompletedProcess exists.  Only if such an executable existed would the
`res != 0` comparison be reached - and, being always true, it would return
None without counting the log. -/
def stage_one_count_errors (dataset procpath plugin : String) (env : ExecEnv) :
    Except PyError (Option Nat) :=
  match subprocessRunStr env (buildCmdJoined dataset procpath plugin) with
  | .error e => .error e
  | .ok res =>
    .ok (if pyResNe0 res then none else some (countMarker env.logContent))

/-- Per-dataset data for the stage_one loop: the two parameters of the
build command and the execution environments of the two count steps. -/
structure StagedDatasetEnv where
  procpath : String
  plugin : String
  preBuild : ExecEnv
  postBuild : ExecEnv
deriving DecidableEq, Repr

/-- stage_one of benchmarking/run_benchmark.py: annotate, count, refactor,
count for each dataset in turn, appending a row after the second count; the
first exception escaping a count step aborts the loop, so no row at or
after the raising dataset is appended. -/
def stage_one_staged : List (String × StagedDatasetEnv) →
    Except PyError (List (String × Option Nat × Option Nat))
  | [] => .ok []
  | d :: ds =>
    match stage_one_count_errors d.1 d.2.procpath d.2.plugin d.2.preBuild with
    | .error e => .error e
    | .ok pre =>
      match stage_one_count_errors d.1 d.2.procpath d.2.plugin d.2.postBuild with
      | .error e => .error e
      | .ok post =>
        match stage_one_staged ds with
        | .error e => .error e
        | .ok rows => .ok ((d.1, pre, post) :: rows)

/-- The marker is exactly the literal that appears in the Python sources. -/
theorem marker_eq_literal : marker = "error: [NullAway]".data := rfl

theorem countMarker_nil : countMarker [] = 0 := rfl

theorem countMarkerAux_skip (l : List Char) : ∀ s : Nat,
    countMarkerAux s l = countMarkerAux 0 (l.drop s) := by
  induction l with
  | nil => intro s; cases s <;> rfl
  | cons c rest ih =>
    intro s
    cases s with
    | zero => rfl
    | succ s => simpa [countMarkerAux, List.drop_succ_cons] using ih s

theorem countMarker_cons (c : Char) (rest : List Char) :
    countMarker (c :: rest) =
      if listStartsWith marker (c :: rest) then
        countMarker ((c :: rest).drop marker.length) + 1
      else countMarker rest := by
  by_cases h : listStartsWith marker (c :: rest)
  · rw [if_pos h]
    show (if listStartsWith marker (c :: rest) then
        countMarkerAux (marker.length - 1) rest + 1
      else countMarkerAux 0 rest) = _
    rw [if_pos h, countMarkerAux_skip]
    rfl
  · rw [if_neg h]
    show (if listStartsWith marker (c :: rest) then
        countMarkerAux (marker.length - 1) rest + 1
      else countMarkerAux 0 rest) = _
    rw [if_neg h]
    rfl

theorem countMarker_cons_pos {c : Char} {rest : List Char}
    (h : listStartsWith marker (c :: rest) = true) :
    countMarker (c :: rest) = countMarker ((c :: rest).drop marker.length) + 1 := by
  rw [countMarker_cons, if_pos h]

theorem countMarker_cons_neg {c : Char} {rest : List Char}
    (h : listStartsWith marker (c :: rest) = false) :
    countMarker (c :: rest) = countMarker rest := by
  rw [countMarker_cons, if_neg (by simp [h])]

theorem listStartsWith_append {p l : List Char} (m : List Char)
    (h : listStartsWith p l = true) : listStartsWith p (l ++ m) = true := by
  induction p generalizing l with
  | nil => simp [listStartsWith]
  | cons x ps ih =>
    cases l with
    | nil => simp [listStartsWith] at h
    | cons c cs =>
      simp only [listStartsWith, Bool.and_eq_true, beq_iff_eq] at h ⊢
      exact ⟨h.1, ih h.2⟩

theorem length_le_of_listStartsWith {p l : List Char}
    (h : listStartsWith p l = true) : p.length ≤ l.length := by
  induction p generalizing l with
  | nil => simp
  | cons x ps ih =>
    cases l with
    | nil => simp [listStartsWith] at h
    | cons c cs =>
      simp only [listStartsWith, Bool.and_eq_true] at h
      simpa [List.length_cons] using ih h.2

theorem listStartsWith_append_newline {p l : List Char} (b : List Char)
    (hp : '\n' ∉ p) (h : listStartsWith p l = false) :
    listStartsWith p (l ++ '\n' :: b) = false := by
  induction p generalizing l with
  | nil => simp [listStartsWith] at h
  | cons x ps ih =>
    cases l with
    | nil =>
      have hx : ¬(x = '\n') := fun hx => hp (hx ▸ List.mem_cons_self x ps)
      simp [listStartsWith, hx]
    | cons c cs =>
      simp only [listStartsWith, Bool.and_eq_false_iff, beq_eq_false_iff_ne, ne_eq] at h ⊢
      rcases h with h | h
      · exact Or.inl h
      · exact Or.inr (ih (fun hmem => hp (List.mem_cons_of_mem x hmem)) h)

/-- A newline never occurs inside the marker, so marker occurrences cannot
straddle a line boundary: counting distributes over a newline join. -/
theorem countMarker_append_newline (a b : List Char) :
    countMarker (a ++ '\n' :: b) = countMarker a + countMarker b := by
  have hnin : '\n' ∉ marker := by decide
  have key : ∀ n (a : List Char), a.length ≤ n → ∀ b : List Char,
      countMarker (a ++ '\n' :: b) = countMarker a + countMarker b := by
    intro n
    induction n with
    | zero =>
      intro a ha b
      have : a = [] := List.eq_nil_of_length_eq_zero (Nat.le_zero.mp ha)
      subst this
      have hsw : listStartsWith marker ('\n' :: b) = false := by
        simp [marker, listStartsWith]
      rw [List.nil_append, countMarker_cons_neg hsw, countMarker_nil]
      omega
    | succ n ih =>
      intro a ha b
      cases a with
      | nil =>
        have hsw : listStartsWith marker ('\n' :: b) = false := by
          simp [marker, listStartsWith]
        rw [List.nil_append, countMarker_cons_neg hsw, countMarker_nil]
        omega
      | cons c a' =>
        by_cases hsw : listStartsWith marker (c :: a') = true
        · have hlen : marker.length ≤ (c :: a').length := length_le_of_listStartsWith hsw
          have hsw' : listStartsWith marker ((c :: a') ++ '\n' :: b) = true :=
            listStartsWith_append _ hsw
          have hdrop : ((c :: a') ++ '\n' :: b).drop marker.length =
              ((c :: a').drop marker.length) ++ '\n' :: b := by
            rw [List.drop_append_eq_append_drop, Nat.sub_eq_zero_of_le hlen, List.drop_zero]
          rw [List.cons_append] at hsw' hdrop
          have hlen' : ((c :: a').drop marker.length).length ≤ n := by
            rw [List.length_drop]
            have h17 : marker.length = 17 := rfl
            rw [h17]
            simp only [List.length_cons] at ha ⊢
            omega
          calc countMarker (c :: a' ++ '\n' :: b)
              = countMarker ((c :: (a' ++ '\n' :: b)).drop marker.length) + 1 :=
                countMarker_cons_pos hsw'
            _ = countMarker (((c :: a').drop marker.length) ++ '\n' :: b) + 1 := by
                rw [hdrop]
            _ = countMarker ((c :: a').drop marker.length) + countMarker b + 1 := by
                rw [ih _ hlen' b]
            _ = countMarker (c :: a') + countMarker b := by
                rw [countMarker_cons_pos hsw]
                omega
        · have hswf : listStartsWith marker (c :: a') = false := by
            simpa using hsw
          have hsw' : listStartsWith marker ((c :: a') ++ '\n' :: b) = false :=
            listStartsWith_append_newline b hnin hswf
          rw [List.cons_append] at hsw'
          have hlen' : a'.length ≤ n := by
            simpa [List.length_cons, Nat.succ_le_succ_iff] using ha
          calc countMarker (c :: a' ++ '\n' :: b)
              = countMarker (a' ++ '\n' :: b) := countMarker_cons_neg hsw'
            _ = countMarker a' + countMarker b := ih _ hlen' b
            _ = countMarker (c :: a') + countMarker b := by
                rw [countMarker_cons_neg hswf]
  exact key a.length a le_rfl b

/-- The marker count of a text is the sum of the counts of its lines. -/
theorem countMarker_joinLines (ls : List (List Char)) :
    countMarker (joinLines ls) = (ls.map countMarker).sum := by
  induction ls with
  | nil =>
    show countMarker [] = (0 : Nat)
    rw [countMarker_nil]
  | cons l ls ih =>
    cases ls with
    | nil => simp [joinLines]
    | cons l' ls' =>
      have hj : joinLines (l :: l' :: ls') = l ++ '\n' :: joinLines (l' :: ls') := rfl
      rw [hj, countMarker_append_newline, ih]
      simp

/-- C1: for every raw analyzer output, the parsed count is the number of
non-overlapping occurrences of the fixed marker "error: [NullAway]"; it is a
pure function of the text, invariant under any permutation of the lines, and
a text whose lines contain no occurrence yields count 0 rather than an
error. -/
theorem C1_log_parse_count (p q : List (List Char)) (hperm : p.Perm q) :
    countMarker (joinLines p) = countMarker (joinLines q) ∧
    ((∀ l ∈ p, countMarker l = 0) → countMarker (joinLines p) = 0) ∧
    marker = "error: [NullAway]".data := by
  refine ⟨?_, ?_, rfl⟩
  · rw [countMarker_joinLines, countMarker_joinLines]
    exact (hperm.map countMarker).sum_eq
  · intro h0
    rw [countMarker_joinLines]
    apply List.sum_eq_zero
    intro x hx
    obtain ⟨l, hl, rfl⟩ := List.mem_map.mp hx
    exact h0 l hl

/-- Witness for C1 at a concrete two-line permutation. -/
theorem C1_log_parse_count_witness :
    ([['a'], ['b']] : List (List Char)).Perm [['b'], ['a']] ∧
    (countMarker (joinLines [['a'], ['b']]) = countMarker (joinLines [['b'], ['a']]) ∧
      ((∀ l ∈ ([['a'], ['b']] : List (List Char)), countMarker l = 0) →
        countMarker (joinLines [['a'], ['b']]) = 0) ∧
      marker = "error: [NullAway]".data) :=
  ⟨List.Perm.swap ['b'] ['a'] [], C1_log_parse_count _ _ (List.Perm.swap ['b'] ['a'] [])⟩

theorem dropNA_summarize_col (results : List BenchmarkResult) :
    dropNA ((summarizeRows results).map (fun row => row.error_reduction_percent)) =
      results.map error_reduction_percent := by
  induction results with
  | nil => rfl
  | cons r rs ih => simpa [summarizeRows, dropNA] using ih

/-- C2: every row produced by the summarize / stage_four aggregator satisfies
error_reduction = initial_error_count - refactored_error_count exactly, and
the value goes negative (is not clamped) when the refactored count exceeds
the initial count. -/
theorem C2_error_reduction_exact (results : List BenchmarkResult) (row : SummaryRow)
    (hrow : row ∈ summarizeRows results) :
    row.error_reduction = row.initial_error_count - row.refactored_error_count ∧
    (row.initial_error_count < row.refactored_error_count → row.error_reduction < 0) := by
  obtain ⟨r, -, rfl⟩ := List.mem_map.mp hrow
  refine ⟨rfl, fun h => ?_⟩
  simpa [error_reduction] using sub_neg.mpr h

/-- Witness for C2 on the row (a, 1, 3): reduction is -2, negative. -/
theorem C2_error_reduction_exact_witness :
    (⟨"a", 1, 3, -2, some (-200)⟩ : SummaryRow) ∈ summarizeRows [⟨"a", 1, 3⟩] ∧
    ((⟨"a", 1, 3, -2, some (-200)⟩ : SummaryRow).error_reduction =
        (⟨"a", 1, 3, -2, some (-200)⟩ : SummaryRow).initial_error_count -
          (⟨"a", 1, 3, -2, some (-200)⟩ : SummaryRow).refactored_error_count ∧
      ((⟨"a", 1, 3, -2, some (-200)⟩ : SummaryRow).initial_error_count <
          (⟨"a", 1, 3, -2, some (-200)⟩ : SummaryRow).refactored_error_count →
        (⟨"a", 1, 3, -2, some (-200)⟩ : SummaryRow).error_reduction < 0)) :=
  ⟨by
    have h : summarizeRows [⟨"a", 1, 3⟩] = [⟨"a", 1, 3, -2, some (-200)⟩] := by
      norm_num [summarizeRows, error_reduction, error_reduction_percent]
    rw [h]
    exact List.mem_singleton.mpr rfl,
   C2_error_reduction_exact [⟨"a", 1, 3⟩] _ (by
    have h : summarizeRows [⟨"a", 1, 3⟩] = [⟨"a", 1, 3, -2, some (-200)⟩] := by
      norm_num [summarizeRows, error_reduction, error_reduction_percent]
    rw [h]
    exact List.mem_singleton.mpr rfl)⟩

/-- C3 fails on the code: a row with initial_error_count = 0 receives
error_reduction_percent = 0 (the else-branch of the lambda) and is included
in the dropna mean.  With rows (a, 0, 0) and (b, 4, 2) the code reports an
average of 25, while the claim's zero-excluding average is 50. -/
theorem C3_counterexample :
    avg_percent_reduction [⟨"a", 0, 0⟩, ⟨"b", 4, 2⟩] = 25 ∧
    avg_percent_nonzero [⟨"a", 0, 0⟩, ⟨"b", 4, 2⟩] = 50 ∧
    avg_percent_reduction [⟨"a", 0, 0⟩, ⟨"b", 4, 2⟩] ≠
      avg_percent_nonzero [⟨"a", 0, 0⟩, ⟨"b", 4, 2⟩] := by
  refine ⟨?_, ?_, ?_⟩
  · norm_num [avg_percent_reduction, summarizeRows, dropNA, error_reduction_percent,
      error_reduction]
  · norm_num [avg_percent_nonzero, error_reduction_percent, error_reduction]
  · norm_num [avg_percent_reduction, avg_percent_nonzero, summarizeRows, dropNA,
      error_reduction_percent, error_reduction]

/-- C3 amended: a row with initial_error_count = 0 is assigned percent 0 and
included in the mean, so the reported average is the mean of the guarded
percentages over all rows; no division by zero occurs because the zero case
never divides, and the inf-to-NA replacement removes nothing. -/
theorem C3_amended_zero_rows_included (results : List BenchmarkResult)
    (r : BenchmarkResult) (_hr : r ∈ results) (h0 : r.initial_error_count = 0) :
    avg_percent_reduction results =
      ((results.map error_reduction_percent).sum) / (results.length : ℚ) ∧
    error_reduction_percent r = 0 := by
  constructor
  · simp only [avg_percent_reduction, dropNA_summarize_col, List.length_map]
  · simp [error_reduction_percent, h0]

/-- Witness for C3 amended at the rows (a, 0, 0) and (b, 4, 2). -/
theorem C3_amended_zero_rows_included_witness :
    (⟨"a", 0, 0⟩ : BenchmarkResult) ∈ ([⟨"a", 0, 0⟩, ⟨"b", 4, 2⟩] : List BenchmarkResult) ∧
    (⟨"a", 0, 0⟩ : BenchmarkResult).initial_error_count = 0 ∧
    (avg_percent_reduction [⟨"a", 0, 0⟩, ⟨"b", 4, 2⟩] =
        ((([⟨"a", 0, 0⟩, ⟨"b", 4, 2⟩] : List BenchmarkResult).map error_reduction_percent).sum) /
          (([⟨"a", 0, 0⟩, ⟨"b", 4, 2⟩] : List BenchmarkResult).length : ℚ) ∧
      error_reduction_percent ⟨"a", 0, 0⟩ = 0) :=
  ⟨by decide, rfl,
    C3_amended_zero_rows_included [⟨"a", 0, 0⟩, ⟨"b", 4, 2⟩] ⟨"a", 0, 0⟩ (by decide) rfl⟩

/-- C8 as stated fails: for the single row (foo, 3, 1) the percent column
holds exactly 200/3 = 66.666..., not 66.67. -/
theorem C8_counterexample :
    (summarizeRows [⟨"foo", 3, 1⟩]).map (fun row => row.error_reduction_percent) ≠
      [some ((6667 : ℚ) / 100)] := by
  norm_num [summarizeRows, error_reduction, error_reduction_percent]

/-- C8 amended: the aggregator produces the row
(foo, 3, 1, 2, 200/3); the exact percentage 200/3 equals 66.67 only after
rounding to two decimal places. -/
theorem C8_amended_row :
    summarizeRows [⟨"foo", 3, 1⟩] = [⟨"foo", 3, 1, 2, some ((200 : ℚ) / 3)⟩] ∧
    roundTo2 ((200 : ℚ) / 3) = (6667 : ℚ) / 100 := by
  constructor
  · norm_num [summarizeRows, error_reduction, error_reduction_percent]
  · have hf : (⌊(200 : ℚ) / 3 * 100 + 1 / 2⌋ : Int) = 6667 := by
      rw [Int.floor_eq_iff]
      constructor <;> norm_num
    rw [roundTo2, hf]
    norm_num

theorem run_benchmark_eq (t : String × DatasetEnv) :
    run_benchmark t.1 t.2 =
      if timesOutB t then .error .timeoutExpired else .ok (benchResult t) := by
  obtain ⟨b, env⟩ := t
  simp only [run_benchmark, benchResult, timesOutB]
  cases hd : env.isDir <;> cases hf : env.findFails <;> cases ht : env.javacTimesOut <;> simp

theorem benchResult_name (t : String × DatasetEnv) : (benchResult t).name = t.1 := by
  obtain ⟨b, env⟩ := t
  cases hd : env.isDir <;> cases hf : env.findFails <;> simp [benchResult, hd, hf]

theorem run_benchmarks_eq (ts : List (String × DatasetEnv)) :
    run_benchmarks ts =
      if ts.any timesOutB then .error .timeoutExpired
      else .ok (ts.map benchResult) := by
  induction ts with
  | nil => rfl
  | cons t ts ih =>
    simp only [run_benchmarks, run_benchmark_eq t, ih, List.any_cons, List.map_cons]
    by_cases h : timesOutB t
    · simp [h]
    · by_cases h2 : ts.any timesOutB <;> simp [h, h2]

theorem any_eq_of_perm {α : Type} {l l' : List α} (h : l.Perm l') (p : α → Bool) :
    l.any p = l'.any p := by
  cases e : l'.any p with
  | false =>
    rw [List.any_eq_false] at e ⊢
    intro x hx
    exact e x (h.mem_iff.mp hx)
  | true =>
    rw [List.any_eq_true] at e ⊢
    obtain ⟨x, hx, hpx⟩ := e
    exact ⟨x, h.mem_iff.mpr hx, hpx⟩

theorem find_eq_of_perm_of_unique {α : Type} {p : α → Bool} {l l' : List α}
    (hperm : l.Perm l')
    (hu : ∀ a ∈ l, ∀ b ∈ l, p a = true → p b = true → a = b) :
    l.find? p = l'.find? p := by
  cases e : l.find? p with
  | none =>
    rw [List.find?_eq_none] at e
    cases e' : l'.find? p with
    | none => rfl
    | some y =>
      have hy := List.find?_some e'
      have hmem := List.mem_of_find?_eq_some e'
      exact absurd hy (by simpa using e y (hperm.mem_iff.mpr hmem))
  | some x =>
    have hx := List.find?_some e
    have hxm := List.mem_of_find?_eq_some e
    cases e' : l'.find? p with
    | none =>
      rw [List.find?_eq_none] at e'
      exact absurd hx (by simpa using e' x (hperm.mem_iff.mp hxm))
    | some y =>
      have hy := List.find?_some e'
      have hym : y ∈ l := hperm.mem_iff.mpr (List.mem_of_find?_eq_some e')
      rw [hu x hxm y hym hx hy]

/-- C4 fails as stated: a javac timeout raises TimeoutExpired out of
run_benchmark (there is no try/except around the javac call), so no -999
record is produced and the collection of results aborts; and a non-zero
compiler exit is not treated as a failure at all - the exit status is never
inspected and the stderr marker count is returned as the value. -/
theorem C4_counterexample :
    run_benchmark "foo" ⟨true, false, true, 0, []⟩ = .error .timeoutExpired ∧
    run_benchmarks [("foo", ⟨true, false, true, 0, []⟩)] = .error .timeoutExpired ∧
    run_benchmark "bar"
        ⟨true, false, false, 1, ("error: [NullAway] and error: [NullAway]").data⟩ =
      .ok ⟨"bar", 2⟩ ∧
    (Except.ok ⟨"bar", 2⟩ : Except PyError BResult) ≠ .ok ⟨"bar", -999⟩ := by
  refine ⟨rfl, rfl, by decide, by decide⟩

/-- C4 amended: only a non-existent dataset directory or a failed source
discovery yields the -999 sentinel record; a javac timeout instead raises an
uncaught TimeoutExpired that aborts the collection of results; a non-zero
compiler exit is not a failure - the stderr marker count is returned; and
when no dataset times out, every dataset (including -999 ones) is processed
and collected. -/
theorem C4_amended_failure_modes (b : String) (env : DatasetEnv)
    (tasks : List (String × DatasetEnv))
    (hnt : ∀ t ∈ tasks, timesOutB t = false) :
    (env.isDir = false → run_benchmark b env = .ok ⟨b, -999⟩) ∧
    (env.isDir = true → env.findFails = true → run_benchmark b env = .ok ⟨b, -999⟩) ∧
    (env.isDir = true → env.findFails = false → env.javacTimesOut = true →
      run_benchmark b env = .error .timeoutExpired) ∧
    (env.isDir = true → env.findFails = false → env.javacTimesOut = false →
      run_benchmark b env = .ok ⟨b, (countMarker env.javacStderr : Int)⟩) ∧
    run_benchmarks tasks = .ok (tasks.map benchResult) := by
  refine ⟨?_, ?_, ?_, ?_, ?_⟩
  · intro h; simp [run_benchmark, h]
  · intro h1 h2; simp [run_benchmark, h1, h2]
  · intro h1 h2 h3; simp [run_benchmark, h1, h2, h3]
  · intro h1 h2 h3; simp [run_benchmark, h1, h2, h3]
  · have h : tasks.any timesOutB = false := by
      rw [List.any_eq_false]
      intro x hx
      simp [hnt x hx]
    rw [run_benchmarks_eq, h]
    simp

/-- Witness for C4 amended at a concrete environment and task list. -/
theorem C4_amended_failure_modes_witness :
    (∀ t ∈ [("b", (⟨false, false, false, 0, []⟩ : DatasetEnv))], timesOutB t = false) ∧
    (((⟨true, false, false, 7, []⟩ : DatasetEnv).isDir = false →
        run_benchmark "a" ⟨true, false, false, 7, []⟩ = .ok ⟨"a", -999⟩) ∧
      ((⟨true, false, false, 7, []⟩ : DatasetEnv).isDir = true →
          (⟨true, false, false, 7, []⟩ : DatasetEnv).findFails = true →
        run_benchmark "a" ⟨true, false, false, 7, []⟩ = .ok ⟨"a", -999⟩) ∧
      ((⟨true, false, false, 7, []⟩ : DatasetEnv).isDir = true →
          (⟨true, false, false, 7, []⟩ : DatasetEnv).findFails = false →
          (⟨true, false, false, 7, []⟩ : DatasetEnv).javacTimesOut = true →
        run_benchmark "a" ⟨true, false, false, 7, []⟩ = .error .timeoutExpired) ∧
      ((⟨true, false, false, 7, []⟩ : DatasetEnv).isDir = true →
          (⟨true, false, false, 7, []⟩ : DatasetEnv).findFails = false →
          (⟨true, false, false, 7, []⟩ : DatasetEnv).javacTimesOut = false →
        run_benchmark "a" ⟨true, false, false, 7, []⟩ =
          .ok ⟨"a", (countMarker (⟨true, false, false, 7, []⟩ : DatasetEnv).javacStderr : Int)⟩) ∧
      run_benchmarks [("b", ⟨false, false, false, 0, []⟩)] =
        .ok ([("b", (⟨false, false, false, 0, []⟩ : DatasetEnv))].map benchResult)) :=
  ⟨by decide,
    C4_amended_failure_modes "a" ⟨true, false, false, 7, []⟩
      [("b", ⟨false, false, false, 0, []⟩)] (by decide)⟩

/-- C6: with isolated per-dataset working state (each dataset's outcome a
function of its own environment only), collecting the thread-pool results in
any completion order yields, for every dataset name, exactly the same error
count as the strictly sequential run - whether the phase is the initial or
the refactored analyzer pass. -/
theorem C6_concurrent_matches_sequential (tasks order : List (String × DatasetEnv))
    (name : String) (hperm : order.Perm tasks)
    (hnodup : (tasks.map Prod.fst).Nodup) :
    Except.map (lookupValue name) (run_benchmarks order) =
      Except.map (lookupValue name) (run_benchmarks tasks) := by
  rw [run_benchmarks_eq, run_benchmarks_eq, any_eq_of_perm hperm]
  by_cases h : tasks.any timesOutB
  · simp [h]
  · simp only [h, Bool.false_eq_true, if_false, Except.map]
    have hordnodup : (order.map Prod.fst).Nodup := (hperm.map Prod.fst).nodup_iff.mpr hnodup
    have hfind : (order.map benchResult).find? (fun r => r.name == name) =
        (tasks.map benchResult).find? (fun r => r.name == name) := by
      apply find_eq_of_perm_of_unique (hperm.map benchResult)
      intro a ha b hb hpa hpb
      obtain ⟨ta, hta, rfl⟩ := List.mem_map.mp ha
      obtain ⟨tb, htb, rfl⟩ := List.mem_map.mp hb
      have hna : ta.1 = name := by
        have := (beq_iff_eq.mp hpa)
        rwa [benchResult_name] at this
      have hnb : tb.1 = name := by
        have := (beq_iff_eq.mp hpb)
        rwa [benchResult_name] at this
      have : ta = tb :=
        List.inj_on_of_nodup_map hordnodup hta htb (by rw [hna, hnb])
      rw [this]
    simp [lookupValue, hfind]

/-- Witness for C6 at two datasets collected in swapped completion order. -/
theorem C6_concurrent_matches_sequential_witness :
    ([("b", (⟨false, false, false, 0, []⟩ : DatasetEnv)),
        ("a", ⟨true, false, false, 0, "error: [NullAway]".data⟩)].Perm
      [("a", (⟨true, false, false, 0, "error: [NullAway]".data⟩ : DatasetEnv)),
        ("b", ⟨false, false, false, 0, []⟩)]) ∧
    ([("a", (⟨true, false, false, 0, "error: [NullAway]".data⟩ : DatasetEnv)),
        ("b", ⟨false, false, false, 0, []⟩)].map Prod.fst).Nodup ∧
    Except.map (lookupValue "a")
        (run_benchmarks [("b", ⟨false, false, false, 0, []⟩),
          ("a", ⟨true, false, false, 0, "error: [NullAway]".data⟩)]) =
      Except.map (lookupValue "a")
        (run_benchmarks [("a", ⟨true, false, false, 0, "error: [NullAway]".data⟩),
          ("b", ⟨false, false, false, 0, []⟩)]) :=
  ⟨by decide, by decide,
    C6_concurrent_matches_sequential
      [("a", ⟨true, false, false, 0, "error: [NullAway]".data⟩),
        ("b", ⟨false, false, false, 0, []⟩)]
      [("b", ⟨false, false, false, 0, []⟩),
        ("a", ⟨true, false, false, 0, "error: [NullAway]".data⟩)]
      "a" (by decide) (by decide)⟩

theorem run_benchmarks_ok {ts : List (String × DatasetEnv)}
    (h : ∀ t ∈ ts, timesOutB t = false) :
    run_benchmarks ts = .ok (ts.map benchResult) := by
  have hany : ts.any timesOutB = false := by
    rw [List.any_eq_false]
    intro x hx
    simp [h x hx]
  rw [run_benchmarks_eq, hany]
  simp

theorem refactorAll_ok {ref : List (String × RefEnv)}
    (h : ∀ t ∈ ref, t.2.timesOut = false) :
    refactorAll ref = .ok () := by
  induction ref with
  | nil => rfl
  | cons t ts ih =>
    have ht : t.2.timesOut = false := h t (List.mem_cons_self t ts)
    simp [refactorAll, refactor_dataset, ht,
      ih (fun x hx => h x (List.mem_cons_of_mem t hx))]

/-- C5 fails as stated for a refactor timeout: refactor_dataset runs the
tool via subprocess.run with a timeout but no try/except, so a timeout
raises an uncaught TimeoutExpired instead of being logged; the exception
propagates out of the thread-pool collection and the pipeline dies before
finalize/summarize, producing no summary at all. -/
theorem C5_counterexample :
    refactor_dataset "baz" ⟨true, 0, []⟩ = .error .timeoutExpired ∧
    fullRun [] [("baz", ⟨true, 0, []⟩)] [] = .error .timeoutExpired :=
  ⟨rfl, rfl⟩

/-- C5 amended: a non-zero exit of the refactoring tool is captured in the
per-dataset log without retry and the pipeline continues and still produces
the final merged tables; in the base_script variant no step of run can raise
at all, so summarize receives one row per dataset whatever the refactor exit
code; but a refactor timeout in refactor_dataset raises an uncaught
TimeoutExpired that aborts the whole run. -/
theorem C5_amended_nonzero_exit_continues (dataset : String) (env : RefEnv)
    (pre post : List (String × DatasetEnv)) (ref : List (String × RefEnv))
    (henv : env.timesOut = false)
    (href : ∀ t ∈ ref, t.2.timesOut = false)
    (hpre : ∀ t ∈ pre, timesOutB t = false)
    (hpost : ∀ t ∈ post, timesOutB t = false) :
    refactor_dataset dataset env = .ok (env.toolOutput ++ refactorTrailer dataset) ∧
    fullRun pre ref post = .ok (pre.map benchResult, post.map benchResult) ∧
    (∀ ds : List (String × BaseDatasetEnv), (summarizeRows (runBase ds)).length = ds.length) := by
  refine ⟨?_, ?_, ?_⟩
  · simp [refactor_dataset, henv]
  · simp [fullRun, run_benchmarks_ok hpre, refactorAll_ok href, run_benchmarks_ok hpost]
  · intro ds
    simp [summarizeRows, runBase]

/-- Witness for C5 amended at a concrete failing-exit refactor run. -/
theorem C5_amended_nonzero_exit_continues_witness :
    ((⟨false, 1, ['x']⟩ : RefEnv).timesOut = false) ∧
    (∀ t ∈ [("a", (⟨false, 1, []⟩ : RefEnv))], t.2.timesOut = false) ∧
    (∀ t ∈ ([] : List (String × DatasetEnv)), timesOutB t = false) ∧
    (refactor_dataset "baz" ⟨false, 1, ['x']⟩ =
        .ok ((⟨false, 1, ['x']⟩ : RefEnv).toolOutput ++ refactorTrailer "baz") ∧
      fullRun [] [("a", ⟨false, 1, []⟩)] [] =
        .ok (([] : List (String × DatasetEnv)).map benchResult,
          ([] : List (String × DatasetEnv)).map benchResult) ∧
      (∀ ds : List (String × BaseDatasetEnv),
        (summarizeRows (runBase ds)).length = ds.length)) :=
  ⟨rfl, by decide, by decide,
    C5_amended_nonzero_exit_continues "baz" ⟨false, 1, ['x']⟩ [] []
      [("a", ⟨false, 1, []⟩)] rfl (by decide) (by decide) (by decide)⟩

theorem verifyJars_exited : ∀ (jars : List JarStatus) (j : JarStatus),
    j ∈ jars → j.present = false → j.downloadOk = false →
    verifyJars jars = .exited 1 := by
  intro jars
  induction jars with
  | nil => intro j hj _ _; cases hj
  | cons a as ih =>
    intro j hj hjp hjd
    by_cases hbad : a.present = false ∧ a.downloadOk = false
    · simp [verifyJars, hbad]
    · rcases List.mem_cons.mp hj with rfl | hmem
      · exact absurd ⟨hjp, hjd⟩ hbad
      · simp [verifyJars, hbad, ih j hmem hjp hjd]

/-- C7 fails as stated for a requested dataset missing from the cache:
run_dataset calls sys.exit() with no argument, which is SystemExit(None)
and terminates the process with exit status 0, not 1. -/
theorem C7_counterexample :
    runDatasetGuard false = .exited 0 ∧ Outcome.exited 0 ≠ .exited 1 :=
  ⟨rfl, by decide⟩

/-- C7 amended: a failed dataset download exits 1, a failed extraction exits
1, a missing jar that cannot be downloaded exits 1, and normal completion
falls through (exit status 0); but a requested dataset missing from the
cache aborts via a bare sys.exit() with exit status 0, not 1. -/
theorem C7_amended_exit_codes (env : SetupEnv) (jars : List JarStatus)
    (j : JarStatus) (hj : j ∈ jars) (hjp : j.present = false)
    (hjd : j.downloadOk = false) :
    (env.cacheEmpty = true → env.downloadOk = false →
      initializeSetup env = .exited 1) ∧
    (env.cacheEmpty = true → env.downloadOk = true → env.extractOk = false →
      initializeSetup env = .exited 1) ∧
    (env.cacheEmpty = false → initializeSetup env = .completed) ∧
    (env.cacheEmpty = true → env.downloadOk = true → env.extractOk = true →
      initializeSetup env = .completed) ∧
    verifyJars jars = .exited 1 ∧
    runDatasetGuard false = .exited 0 ∧
    runDatasetGuard true = .completed := by
  refine ⟨?_, ?_, ?_, ?_, verifyJars_exited jars j hj hjp hjd, rfl, rfl⟩
  · intro h1 h2; simp [initializeSetup, h1, h2]
  · intro h1 h2 h3; simp [initializeSetup, h1, h2, h3]
  · intro h1; simp [initializeSetup, h1]
  · intro h1 h2 h3; simp [initializeSetup, h1, h2, h3]

/-- Witness for C7 amended at a concrete environment and jar list. -/
theorem C7_amended_exit_codes_witness :
    ((⟨false, false⟩ : JarStatus) ∈
        [(⟨true, true⟩ : JarStatus), ⟨false, false⟩]) ∧
    (⟨false, false⟩ : JarStatus).present = false ∧
    ((((⟨true, false, true⟩ : SetupEnv)).cacheEmpty = true →
        (⟨true, false, true⟩ : SetupEnv).downloadOk = false →
      initializeSetup ⟨true, false, true⟩ = .exited 1) ∧
      ((⟨true, false, true⟩ : SetupEnv).cacheEmpty = true →
          (⟨true, false, true⟩ : SetupEnv).downloadOk = true →
          (⟨true, false, true⟩ : SetupEnv).extractOk = false →
        initializeSetup ⟨true, false, true⟩ = .exited 1) ∧
      ((⟨true, false, true⟩ : SetupEnv).cacheEmpty = false →
        initializeSetup ⟨true, false, true⟩ = .completed) ∧
      ((⟨true, false, true⟩ : SetupEnv).cacheEmpty = true →
          (⟨true, false, true⟩ : SetupEnv).downloadOk = true →
          (⟨true, false, true⟩ : SetupEnv).extractOk = true →
        initializeSetup ⟨true, false, true⟩ = .completed) ∧
      verifyJars [⟨true, true⟩, ⟨false, false⟩] = .exited 1 ∧
      runDatasetGuard false = .exited 0 ∧
      runDatasetGuard true = .completed) :=
  ⟨by decide, rfl,
    C7_amended_exit_codes ⟨true, false, true⟩ [⟨true, true⟩, ⟨false, false⟩]
      ⟨false, false⟩ (by decide) rfl rfl⟩

theorem run_benchmark_nullaway_exits : ∀ (entries : List NEntry) (e : NEntry),
    e ∈ entries → e.isDir = true → run_benchmark_nullaway entries = .error 0 := by
  intro entries
  induction entries with
  | nil => intro e he _; cases he
  | cons a as ih =>
    intro e he hdir
    by_cases ha : a.isDir = false
    · rcases List.mem_cons.mp he with rfl | hmem
      · rw [ha] at hdir; cases hdir
      · simp [run_benchmark_nullaway, ha, ih e hmem hdir]
    · have ha' : a.isDir = true := by revert ha; cases a.isDir <;> simp
      simp [run_benchmark_nullaway, ha']

/-- C9: run_nullaway's run_benchmark prints the javac command for the first
directory entry and then calls sys.exit() unconditionally (exit status 0,
SystemExit(None)); the analyzer subprocess call and the error accumulation
after it are unreachable, so the whole staged pipeline terminates at the
first directory dataset without producing any result rows. -/
theorem C9_unconditional_exit (entries : List NEntry) (e : NEntry)
    (he : e ∈ entries) (hdir : e.isDir = true) :
    run_benchmark_nullaway entries = .error 0 ∧
    stageOneNullaway entries = .error 0 := by
  have h := run_benchmark_nullaway_exits entries e he hdir
  exact ⟨h, by simp [stageOneNullaway, h]⟩

/-- Witness for C9 at a listing with a file then a directory. -/
theorem C9_unconditional_exit_witness :
    ((⟨"proj", true⟩ : NEntry) ∈ [(⟨"f.txt", false⟩ : NEntry), ⟨"proj", true⟩]) ∧
    (⟨"proj", true⟩ : NEntry).isDir = true ∧
    (run_benchmark_nullaway [⟨"f.txt", false⟩, ⟨"proj", true⟩] = .error 0 ∧
      stageOneNullaway [⟨"f.txt", false⟩, ⟨"proj", true⟩] = .error 0) :=
  ⟨by decide, rfl,
    C9_unconditional_exit [⟨"f.txt", false⟩, ⟨"proj", true⟩] ⟨"proj", true⟩
      (by decide) rfl⟩

/-- C10 fails as stated for stage_one_count_errors: the joined build command
is passed to subprocess.run as ONE string WITHOUT shell=True, so in any
POSIX environment where no executable is named by that whole space-embedded
string the call raises FileNotFoundError before a CompletedProcess exists -
the function raises instead of returning None, and stage_one crashes at the
first dataset's count step having appended no row at all. -/
theorem C10_counterexample :
    stage_one_count_errors "a" "P" "O" ⟨["javac", "find", "awk"], 0, []⟩ =
      .error .fileNotFound ∧
    stage_one_count_errors "a" "P" "O" ⟨["javac", "find", "awk"], 0, []⟩ ≠
      .ok none ∧
    stage_one_staged
        [("a", ⟨"P", "O", ⟨["javac", "find", "awk"], 0, []⟩,
          ⟨["javac", "find", "awk"], 0, []⟩⟩)] =
      .error .fileNotFound := by
  refine ⟨by decide, by decide, by decide⟩

/-- C10 amended: the `res != 0` comparison of a CompletedProcess with the
integer 0 is indeed always unequal, and stage_one_refactor - which runs its
command through the shell and so does obtain a CompletedProcess - always
prints its failure message; but in stage_one_count_errors that comparison is
dead code: the build command is joined into one string and passed to
subprocess.run without shell=True, so whenever no executable is named by the
whole joined string (always, on POSIX) the call raises FileNotFoundError,
the function raises instead of returning None, and stage_one aborts at the
first dataset's count step with no result rows recorded at all. -/
theorem C10_amended_count_step_raises (env : BuildRunEnv)
    (dataset procpath plugin : String) (e : ExecEnv)
    (hna : buildCmdJoined dataset procpath plugin ∉ e.available)
    (datasets : List (String × StagedDatasetEnv))
    (hall : ∀ d ∈ datasets,
      buildCmdJoined d.1 d.2.procpath d.2.plugin ∉ d.2.preBuild.available)
    (hne : datasets ≠ []) :
    stage_one_refactor_prints_failure env = true ∧
    (∀ res : CompletedProcess, pyResNe0 res = true) ∧
    stage_one_count_errors dataset procpath plugin e = .error .fileNotFound ∧
    stage_one_staged datasets = .error .fileNotFound := by
  refine ⟨rfl, fun res => rfl, ?_, ?_⟩
  · simp [stage_one_count_errors, subprocessRunStr, hna]
  · cases datasets with
    | nil => exact absurd rfl hne
    | cons d ds =>
      have hd := hall d (List.mem_cons_self d ds)
      simp [stage_one_staged, stage_one_count_errors, subprocessRunStr, hd]

/-- Witness for C10 amended at a concrete POSIX-like executable set. -/
theorem C10_amended_count_step_raises_witness :
    (buildCmdJoined "a" "P" "O" ∉
        (⟨["javac", "find", "awk"], 0, []⟩ : ExecEnv).available) ∧
    (∀ d ∈ [("a", (⟨"P", "O", ⟨["javac"], 0, []⟩,
        ⟨["javac"], 0, []⟩⟩ : StagedDatasetEnv))],
      buildCmdJoined d.1 d.2.procpath d.2.plugin ∉ d.2.preBuild.available) ∧
    ([("a", (⟨"P", "O", ⟨["javac"], 0, []⟩,
        ⟨["javac"], 0, []⟩⟩ : StagedDatasetEnv))] ≠ []) ∧
    (stage_one_refactor_prints_failure ⟨0, []⟩ = true ∧
      (∀ res : CompletedProcess, pyResNe0 res = true) ∧
      stage_one_count_errors "a" "P" "O" ⟨["javac", "find", "awk"], 0, []⟩ =
        .error .fileNotFound ∧
      stage_one_staged [("a", ⟨"P", "O", ⟨["javac"], 0, []⟩, ⟨["javac"], 0, []⟩⟩)] =
        .error .fileNotFound) :=
  ⟨by decide, by decide, by decide,
    C10_amended_count_step_raises ⟨0, []⟩ "a" "P" "O"
      ⟨["javac", "find", "awk"], 0, []⟩ (by decide)
      [("a", ⟨"P", "O", ⟨["javac"], 0, []⟩, ⟨["javac"], 0, []⟩⟩)]
      (by decide) (by decide)⟩
